import Mathlib

/-!
# Verification of the umami analytics MCP server core logic

Shallow embedding of the two source files of the repository:

* `src/analytics_service/utils.py` — `convert_date_to_unix`, converting a
  date string (`YYYY-MM-DD` or `YYYY-MM-DD HH:MM:SS`) to a millisecond Unix
  timestamp interpreted in the local timezone, with an end-of-day convention.
* `src/analytics_service/server.py` — the session collector
  `_get_session_ids` (pagination over an events-by-query endpoint) and the
  tool handlers (`get_websites`, `get_session_ids`, `get_tracking_data`,
  `get_website_stats`, `get_website_metrics`, `get_pageview_series`,
  `get_active_visitors`).

The remote API client (`analytics_service.api.UmamiClient`) is an external
collaborator: handlers take the remote call's outcome as an explicit
`Except`-valued argument, and the collector takes the page-response sequence
as a function argument.
-/

/-! ## Date parsing (CPython `datetime.strptime` for the two fixed formats)

`datetime.strptime` compiles the format to a regex.  For the two formats used
by the source the component patterns are (in CPython `_strptime`):

* `%Y` → four digits;
* `%m` → `1[0-2]|0[1-9]|[1-9]`;
* `%d` → `3[01]|[12]\d|0[1-9]|[1-9]`;
* `%H` → `2[0-3]|[0-1]\d|\d`;
* `%M` → `[0-5]\d|\d`;
* `%S` → `6[0-1]|[0-5]\d|\d`;
* a space in the format → one or more whitespace characters;
* the whole string must be consumed.

For these formats the regex alternatives are ordered longest-first and are
followed by a non-digit separator (or the end of the string), so first-match
per component without global backtracking is equivalent to the regex
semantics; the parsers below implement the alternatives in the regex's order.
After the regex matches, the `datetime` constructor validates the calendar
date (year ≥ 1, day within the month) and rejects seconds above 59.
-/

def digitVal (c : Char) : Nat := c.toNat - 48

/-- `%Y`: exactly four digits. -/
def parseY : List Char → Option (Nat × List Char)
  | a :: b :: c :: d :: rest =>
    if a.isDigit ∧ b.isDigit ∧ c.isDigit ∧ d.isDigit then
      some (1000 * digitVal a + 100 * digitVal b + 10 * digitVal c + digitVal d, rest)
    else none
  | _ => none

/-- `%m`: `1[0-2]|0[1-9]|[1-9]`, alternatives tried in order. -/
def parseM : List Char → Option (Nat × List Char)
  | c1 :: c2 :: rest =>
    if c1 = '1' ∧ (c2 = '0' ∨ c2 = '1' ∨ c2 = '2') then some (10 + digitVal c2, rest)
    else if c1 = '0' ∧ '1' ≤ c2 ∧ c2 ≤ '9' then some (digitVal c2, rest)
    else if '1' ≤ c1 ∧ c1 ≤ '9' then some (digitVal c1, c2 :: rest)
    else none
  | [c1] => if '1' ≤ c1 ∧ c1 ≤ '9' then some (digitVal c1, []) else none
  | [] => none

/-- `%d`: `3[01]|[12]\d|0[1-9]|[1-9]`, alternatives tried in order. -/
def parseD : List Char → Option (Nat × List Char)
  | c1 :: c2 :: rest =>
    if c1 = '3' ∧ (c2 = '0' ∨ c2 = '1') then some (30 + digitVal c2, rest)
    else if (c1 = '1' ∨ c1 = '2') ∧ c2.isDigit then some (10 * digitVal c1 + digitVal c2, rest)
    else if c1 = '0' ∧ '1' ≤ c2 ∧ c2 ≤ '9' then some (digitVal c2, rest)
    else if '1' ≤ c1 ∧ c1 ≤ '9' then some (digitVal c1, c2 :: rest)
    else none
  | [c1] => if '1' ≤ c1 ∧ c1 ≤ '9' then some (digitVal c1, []) else none
  | [] => none

/-- `%H`: `2[0-3]|[0-1]\d|\d`, alternatives tried in order. -/
def parseH : List Char → Option (Nat × List Char)
  | c1 :: c2 :: rest =>
    if c1 = '2' ∧ (c2 = '0' ∨ c2 = '1' ∨ c2 = '2' ∨ c2 = '3') then some (20 + digitVal c2, rest)
    else if (c1 = '0' ∨ c1 = '1') ∧ c2.isDigit then some (10 * digitVal c1 + digitVal c2, rest)
    else if c1.isDigit then some (digitVal c1, c2 :: rest)
    else none
  | [c1] => if c1.isDigit then some (digitVal c1, []) else none
  | [] => none

/-- `%M`: `[0-5]\d|\d`, alternatives tried in order. -/
def parseMin : List Char → Option (Nat × List Char)
  | c1 :: c2 :: rest =>
    if '0' ≤ c1 ∧ c1 ≤ '5' ∧ c2.isDigit then some (10 * digitVal c1 + digitVal c2, rest)
    else if c1.isDigit then some (digitVal c1, c2 :: rest)
    else none
  | [c1] => if c1.isDigit then some (digitVal c1, []) else none
  | [] => none

/-- `%S`: `6[0-1]|[0-5]\d|\d`, alternatives tried in order.  Values 60 and 61
can match here; the `datetime` constructor rejects them afterwards. -/
def parseS : List Char → Option (Nat × List Char)
  | c1 :: c2 :: rest =>
    if c1 = '6' ∧ (c2 = '0' ∨ c2 = '1') then some (60 + digitVal c2, rest)
    else if '0' ≤ c1 ∧ c1 ≤ '5' ∧ c2.isDigit then some (10 * digitVal c1 + digitVal c2, rest)
    else if c1.isDigit then some (digitVal c1, c2 :: rest)
    else none
  | [c1] => if c1.isDigit then some (digitVal c1, []) else none
  | [] => none

/-- A space in the format string: one or more whitespace characters. -/
def parseWs : List Char → Option (List Char)
  | c :: rest => if c.isWhitespace then some (rest.dropWhile Char.isWhitespace) else none
  | [] => none

/-- A literal character of the format string. -/
def parseLit (ch : Char) : List Char → Option (List Char)
  | c :: rest => if c = ch then some rest else none
  | [] => none

/-- The shared `%Y-%m-%d` prefix of both formats. -/
def parseYMD (cs : List Char) : Option ((Nat × Nat × Nat) × List Char) := do
  let (y, r1) ← parseY cs
  let r2 ← parseLit '-' r1
  let (m, r3) ← parseM r2
  let r4 ← parseLit '-' r3
  let (d, r5) ← parseD r4
  some ((y, m, d), r5)

/-- The `%H:%M:%S` time part. -/
def parseHMS (cs : List Char) : Option ((Nat × Nat × Nat) × List Char) := do
  let (h, r1) ← parseH cs
  let r2 ← parseLit ':' r1
  let (mi, r3) ← parseMin r2
  let r4 ← parseLit ':' r3
  let (s, r5) ← parseS r4
  some ((h, mi, s), r5)

def isLeapYear (y : Nat) : Bool := y % 4 = 0 && (y % 100 ≠ 0 || y % 400 = 0)

def daysInMonth (y m : Nat) : Nat :=
  if m = 2 then (if isLeapYear y then 29 else 28)
  else if m = 4 ∨ m = 6 ∨ m = 9 ∨ m = 11 then 30
  else 31

/-- The `datetime` constructor's validation of the fields the regex does not
already bound: year at least `MINYEAR = 1`, day within the month. -/
def validYMD (y m d : Nat) : Bool := 1 ≤ y ∧ 1 ≤ d ∧ d ≤ daysInMonth y m

/-- `datetime.strptime(s, "%Y-%m-%d")`, with CPython's error messages
abbreviated to one representative string per failure kind. -/
def parseDateOnlyE (cs : List Char) : Except String (Nat × Nat × Nat) :=
  match parseYMD cs with
  | none => .error "time data does not match format %Y-%m-%d"
  | some ((y, m, d), rest) =>
    if rest ≠ [] then .error "unconverted data remains"
    else if validYMD y m d then .ok (y, m, d)
    else .error "day is out of range for month"

/-- `datetime.strptime(s, "%Y-%m-%d %H:%M:%S")`, with CPython's error
messages abbreviated to one representative string per failure kind. -/
def parseDateTimeE (cs : List Char) :
    Except String ((Nat × Nat × Nat) × (Nat × Nat × Nat)) :=
  match parseYMD cs with
  | none => .error "time data does not match format %Y-%m-%d %H:%M:%S"
  | some ((y, m, d), rest) =>
    match parseWs rest with
    | none => .error "time data does not match format %Y-%m-%d %H:%M:%S"
    | some r2 =>
      match parseHMS r2 with
      | none => .error "time data does not match format %Y-%m-%d %H:%M:%S"
      | some ((h, mi, s), r3) =>
        if r3 ≠ [] then .error "unconverted data remains"
        else if validYMD y m d ∧ s ≤ 59 then .ok ((y, m, d), (h, mi, s))
        else .error "value out of range"

/-- Days between 1970-01-01 and the given Gregorian calendar date
(Hinnant's `days_from_civil`); for every parsed date the year is at least 1,
so all division operands are nonnegative and every integer-division
convention agrees with the algorithm. -/
def daysFromCivil (y m d : Int) : Int :=
  let y2 := if m ≤ 2 then y - 1 else y
  let era := (if 0 ≤ y2 then y2 else y2 - 399) / 400
  let yoe := y2 - era * 400
  let mp := if m ≤ 2 then m + 9 else m - 3
  let doy := (153 * mp + 2) / 5 + d - 1
  let doe := yoe * 365 + yoe / 4 - yoe / 100 + doy
  era * 146097 + doe - 719468

/-- Milliseconds since the epoch of a wall-clock date-time, before the
local-timezone shift. -/
def wallMs (y m d h mi s us : Int) : Int :=
  daysFromCivil y m d * 86400000 + h * 3600000 + mi * 60000 + s * 1000 + us / 1000

/-- `convert_date_to_unix` from `src/analytics_service/utils.py`.

The `tz` parameter is the local timezone's offset from UTC in milliseconds
(`dt.timestamp()` interprets the naive datetime in the process's local
timezone); the source consults no timezone argument, so the offset is a fixed
ambient parameter here.

`int(dt.timestamp() * 1000)` is modelled as exact integer arithmetic.  For
every path with `microsecond = 0` this is exact: the integer epoch seconds,
their sum with `0.0`, and the product with `1000` are all integers below
`2^53`, hence represented and computed exactly in IEEE double precision.  For
the `end_of_day` path (`microsecond = 999000`) the double computation can
truncate 1 ms away; that deviation is modelled separately by `tsMsFloatEod`
below. -/
def convert_date_to_unix (tz : Int) (date_str : String) (end_of_day : Bool) :
    Except String Int :=
  match parseDateTimeE date_str.data with
  | .ok ((y, m, d), (h, mi, s)) =>
    .ok (wallMs y m d h mi s 0 - tz)
  | .error _ =>
    match parseDateOnlyE date_str.data with
    | .ok (y, m, d) =>
      if end_of_day then .ok (wallMs y m d 23 59 59 999000 - tz)
      else .ok (wallMs y m d 0 0 0 0 - tz)
    | .error e =>
      .error ("Invalid date format. Please use YYYY-MM-DD or YYYY-MM-DD HH:MM:SS. Error: "
        ++ e)

instance {ε α : Type} [DecidableEq ε] [DecidableEq α] : DecidableEq (Except ε α) :=
  fun x y =>
    match x, y with
    | .ok a, .ok b =>
      if h : a = b then .isTrue (by rw [h])
      else .isFalse (by intro hh; cases hh; exact h rfl)
    | .error a, .error b =>
      if h : a = b then .isTrue (by rw [h])
      else .isFalse (by intro hh; cases hh; exact h rfl)
    | .ok _, .error _ => .isFalse (by intro h; cases h)
    | .error _, .ok _ => .isFalse (by intro h; cases h)

/-! ## IEEE-754 double model of the `end_of_day` timestamp computation

`datetime.timestamp()` on a naive datetime returns the float
`s + microsecond / 1e6` with `s` the integer epoch second (CPython
`datetime._mktime`), and the source then computes `int(dt.timestamp() * 1000)`.
With `microsecond = 999000` the float arithmetic is not exact; the
definitions below model the positive-value computation exactly: IEEE double
precision is round-to-nearest, ties-to-even, at 53 significant bits, and
`int` truncates toward zero. -/

/-- Bit length of a natural number (`0` for `0`), by fuel-bounded halving. -/
def nbits (n : Nat) : Nat := nbitsGo n n
where nbitsGo : Nat → Nat → Nat
  | 0, _ => 0
  | fuel + 1, m => if m = 0 then 0 else 1 + nbitsGo fuel (m / 2)

/-- Round the fraction `a / b` (with `b > 0`) to the nearest integer, ties to
even. -/
def rneFrac (a b : Int) : Int :=
  let q := a.fdiv b
  let r := a - q * b
  if 2 * r < b then q
  else if b < 2 * r then q + 1
  else if q % 2 = 0 then q else q + 1

/-- Round the positive fraction `a / b` to the nearest IEEE double (53
significant bits, round to nearest, ties to even; normal range only, which
covers every value in the computation below).  The result is returned as a
mantissa-exponent pair `(m, e)` denoting `m * 2 ^ (e - 52)`. -/
def fl53Frac (a b : Int) : Int × Int :=
  let e : Int :=
    if b ≤ a then (nbits (a.fdiv b).toNat : Int) - 1
    else
      let L : Int := (nbits (b.fdiv a).toNat : Int) - 1
      if a * ((2 ^ L.toNat : Nat) : Int) = b then -L else -L - 1
  let m :=
    if e ≤ 52 then rneFrac (a * ((2 ^ (52 - e).toNat : Nat) : Int)) b
    else rneFrac a (b * ((2 ^ (e - 52).toNat : Nat) : Int))
  (m, e)

/-- `int(dt.timestamp() * 1000)` for the `end_of_day` path, under IEEE-754
double semantics, for positive epoch seconds `s` (below `2^52`, so `float(s)`
is exact): the correctly rounded division `999000 / 1e6`, one rounded
addition, one rounded multiplication by `1000`, then truncation toward zero
(Python's `int()`; the value is positive, so truncation is `Int` division). -/
def tsMsFloatEod (s : Int) : Int :=
  let p0 := fl53Frac 999000 1000000
  let den0 : Int := ((2 ^ (52 - p0.2).toNat : Nat) : Int)
  let p1 := fl53Frac (s * den0 + p0.1) den0
  let den1 : Int := ((2 ^ (52 - p1.2).toNat : Nat) : Int)
  let p2 := fl53Frac (1000 * p1.1) den1
  let den2 : Int := ((2 ^ (52 - p2.2).toNat : Nat) : Int)
  p2.1 / den2

/-! ## The session collector (`_get_session_ids` in `server.py`)

A page response from `client.get_events_where` is a Python dict or `None`.
The collector reads only the keys `"data"`, `"page"` and `"count"`, so the
dict is modelled by the presence and value of those three keys; each record
of the `"data"` list is read only at its `"sessionId"` key, so a record is
modelled by that key's optional value.  A dict is falsy exactly when it is
empty; any dict whose observed keys are all absent behaves, for this code,
like an empty one.

The `while True:` loop is given fuel; `RunResult.outOfFuel` marks a run that
is still in the loop after that many iterations.  A `KeyError` escaping the
loop is `RunResult.err`.  The list of page numbers passed to
`client.get_events_where` is returned alongside the result.  Python's
`list({...})` and `list(set(ids))` produce the distinct elements in an
unspecified order; both are modelled by `List.dedup`, which keeps exactly
the distinct elements. -/

structure PageDict where
  data : Option (List (Option String))
  page : Option Int
  count : Option Int
deriving DecidableEq

/-- Python truthiness of the (restricted) response dict: at least one key
present. -/
def PageDict.truthy (d : PageDict) : Bool :=
  d.data.isSome || d.page.isSome || d.count.isSome

/-- `{event["sessionId"] for event in data}` as a list of the looked-up
values; `none` models the `KeyError` raised when some record lacks the key. -/
def extractIds : List (Option String) → Option (List String)
  | [] => some []
  | none :: _ => none
  | some s :: rest => (extractIds rest).map (s :: ·)

inductive RunResult where
  | ok (ids : List String)
  | err (msg : String)
  | outOfFuel
deriving DecidableEq

/-- The body of `_get_session_ids`: `resp` is the page-response sequence
(`client.get_events_where` at each requested page number), `page` the loop
counter, `acc` the `ids` list, `req` the page numbers requested so far. -/
def getSessionIdsAux (resp : Nat → Option PageDict) :
    Nat → Nat → List String → List Nat → RunResult × List Nat
  | 0, _, _, req => (.outOfFuel, req)
  | fuel + 1, page, acc, req =>
    let req2 := req ++ [page]
    match resp page with
    | none => (.ok acc.dedup, req2)
    | some d =>
      if d.truthy = false then (.ok acc.dedup, req2)
      else
        match d.data with
        | none => (.err "KeyError: data", req2)
        | some recs =>
          match extractIds recs with
          | none => (.err "KeyError: sessionId", req2)
          | some ids0 =>
            let acc2 := acc ++ ids0.dedup
            match d.page with
            | none => (.err "KeyError: page", req2)
            | some p =>
              match d.count with
              | none => (.err "KeyError: count", req2)
              | some c =>
                if c ≤ 200 * p then (.ok acc2.dedup, req2)
                else getSessionIdsAux resp fuel (page + 1) acc2 req2

/-- `_get_session_ids` from `server.py`: page counter starts at `1`, the
accumulator empty.  (The `if events_where:` guard after the break is always
true there and needs no separate case; the page size `200` is fixed in the
request and appears in the stop condition
`200 * events_where["page"] >= events_where["count"]`, i.e.
`count ≤ 200 * page`.) -/
def _get_session_ids (resp : Nat → Option PageDict) (fuel : Nat) :
    RunResult × List Nat :=
  getSessionIdsAux resp fuel 1 [] []

/-- The number of pages the collector fetches when every page reports the
requested page number and a fixed total `count = c`: the least `k ≥ 1` with
`200 * k ≥ c`. -/
def pagesNeeded (c : Int) : Nat := max 1 ((c + 199) / 200).toNat

/-! ## Tool handlers (`@mcp.tool()` functions in `server.py`)

Each handler is a `try`/`except` block that converts its date parameters (if
any), delegates to one `UmamiClient` call, serializes the result with
`json.dumps(·, indent=2)` and returns the resulting text, or catches any
exception `e` and returns a fixed label followed by `str(e)`.

The remote client is an external collaborator: each handler takes the remote
call as a function argument returning `Except String α` (`Except.error e`
models the call raising an exception with text `e`), and the serializer
`json.dumps(·, indent=2)` as an opaque `dumps : α → String`.  The non-date
parameters (`website_id`, `session_id`, `type`, `unit`, `timezone`,
`event_name`) are passed through to the remote call unchanged.

`get_session_ids` delegates to the session collector instead; its fuel-based
model returns `none` while the collector's loop is still running, and
`some text` whenever the Python handler returns. -/

def get_websites {α : Type} (remote : Except String α) (dumps : α → String) : String :=
  match remote with
  | .ok sites => dumps sites
  | .error e => "Error fetching websites: " ++ e

def get_session_ids (tz : Int) (website_id start_at end_at : String)
    (event_name : Option String)
    (resp : String → Option String → Int → Int → Nat → Option PageDict)
    (fuel : Nat) (dumps : List String → String) : Option String :=
  match convert_date_to_unix tz start_at false with
  | .error e => some ("Error fetching session IDs: " ++ e)
  | .ok start_ts =>
    match convert_date_to_unix tz end_at true with
    | .error e => some ("Error fetching session IDs: " ++ e)
    | .ok end_ts =>
      match _get_session_ids (resp website_id event_name start_ts end_ts) fuel with
      | (.ok ids, _) => some (dumps ids)
      | (.err e, _) => some ("Error fetching session IDs: " ++ e)
      | (.outOfFuel, _) => none

def get_tracking_data {α : Type} (tz : Int) (website_id session_id start_at end_at : String)
    (remote : String → String → Int → Int → Except String α) (dumps : α → String) : String :=
  match convert_date_to_unix tz start_at false with
  | .error e => "Error fetching tracking data: " ++ e
  | .ok start_ts =>
    match convert_date_to_unix tz end_at true with
    | .error e => "Error fetching tracking data: " ++ e
    | .ok end_ts =>
      match remote website_id session_id start_ts end_ts with
      | .ok v => dumps v
      | .error e => "Error fetching tracking data: " ++ e

def get_website_stats {α : Type} (tz : Int) (website_id start_at end_at : String)
    (remote : String → Int → Int → Except String α) (dumps : α → String) : String :=
  match convert_date_to_unix tz start_at false with
  | .error e => "Error fetching website stats: " ++ e
  | .ok start_ts =>
    match convert_date_to_unix tz end_at true with
    | .error e => "Error fetching website stats: " ++ e
    | .ok end_ts =>
      match remote website_id start_ts end_ts with
      | .ok v => dumps v
      | .error e => "Error fetching website stats: " ++ e

def get_website_metrics {α : Type} (tz : Int) (website_id start_at end_at type : String)
    (remote : String → Int → Int → String → Except String α) (dumps : α → String) : String :=
  match convert_date_to_unix tz start_at false with
  | .error e => "Error fetching website metrics: " ++ e
  | .ok start_ts =>
    match convert_date_to_unix tz end_at true with
    | .error e => "Error fetching website metrics: " ++ e
    | .ok end_ts =>
      match remote website_id start_ts end_ts type with
      | .ok v => dumps v
      | .error e => "Error fetching website metrics: " ++ e

def get_pageview_series {α : Type} (tz : Int) (website_id start_at end_at unit timezone : String)
    (remote : String → Int → Int → String → String → Except String α)
    (dumps : α → String) : String :=
  match convert_date_to_unix tz start_at false with
  | .error e => "Error fetching pageview series: " ++ e
  | .ok start_ts =>
    match convert_date_to_unix tz end_at true with
    | .error e => "Error fetching pageview series: " ++ e
    | .ok end_ts =>
      match remote website_id start_ts end_ts unit timezone with
      | .ok v => dumps v
      | .error e => "Error fetching pageview series: " ++ e

def get_active_visitors {α : Type} (website_id : String)
    (remote : String → Except String α) (dumps : α → String) : String :=
  match remote website_id with
  | .ok v => dumps v
  | .error e => "Error fetching active visitors: " ++ e

/-- The consecutive page numbers `[p, p + 1, …, p + n - 1]`. -/
def consecPages (p : Nat) : Nat → List Nat
  | 0 => []
  | n + 1 => p :: consecPages (p + 1) n

/-- The session identifier `s` occurs in the `data` list of the page
response `r`. -/
def pageHas (r : Option PageDict) (s : String) : Prop :=
  ∃ d recs, r = some d ∧ d.data = some recs ∧ some s ∈ recs

/-! ## Sanity evaluations of the embedded definitions -/

example : daysFromCivil 1970 1 1 = 0 := by decide
example : daysFromCivil 2024 3 1 = 19783 := by decide
example : daysFromCivil 1987 3 1 = 6268 := by decide
example : convert_date_to_unix 0 "2024-03-01" false = .ok 1709251200000 := by decide
example : convert_date_to_unix 0 "2024-03-01" true = .ok 1709337599999 := by decide
example : convert_date_to_unix 0 "2024-03-01 08:30:00" true = .ok 1709281800000 := by decide
example : convert_date_to_unix 0 "not-a-date" true =
    .error ("Invalid date format. Please use YYYY-MM-DD or YYYY-MM-DD HH:MM:SS. Error: "
      ++ "time data does not match format %Y-%m-%d") := by decide
example : convert_date_to_unix 0 "2024-02-30" false =
    .error ("Invalid date format. Please use YYYY-MM-DD or YYYY-MM-DD HH:MM:SS. Error: "
      ++ "day is out of range for month") := by decide

example : fl53Frac 999000 1000000 = (8998192055486251, -1) := by decide
example : tsMsFloatEod 541641599 = 541641599998 := by decide
example : tsMsFloatEod 1709337599 = 1709337599999 := by decide

example :
    _get_session_ids (fun _ => none) 5 = (.ok [], [1]) := by decide
example :
    _get_session_ids (fun p => some ⟨some [some "A", some "A", some "B"], some p, some 5⟩) 5 =
      (.ok ["A", "B"], [1]) := by decide
example :
    _get_session_ids (fun p => some ⟨some [], some p, some 450⟩) 5 =
      (.ok [], [1, 2, 3]) := by decide
example :
    _get_session_ids (fun _ => some ⟨none, some 1, some 5⟩) 5 =
      (.err "KeyError: data", [1]) := by decide
example : pagesNeeded 450 = 3 ∧ pagesNeeded 400 = 2 ∧ pagesNeeded 0 = 1 := by decide

/-! ## Claims -/

/-- A successful `sessionId` extraction contains exactly the values present
in the records. -/
theorem extractIds_mem_iff :
    ∀ {recs : List (Option String)} {l : List String}, extractIds recs = some l →
      ∀ s, s ∈ l ↔ some s ∈ recs := by
  intro recs
  induction recs with
  | nil =>
    intro l h s
    simp only [extractIds, Option.some.injEq] at h
    subst h
    simp
  | cons a rest ih =>
    intro l h s
    cases a with
    | none => simp [extractIds] at h
    | some x =>
      simp only [extractIds] at h
      cases hrest : extractIds rest with
      | none => rw [hrest] at h; simp at h
      | some l' =>
        rw [hrest] at h
        simp at h
        subst h
        simp [ih hrest s]

/-- `pagesNeeded c` is the least page number `k ≥ 1` with `200 * k ≥ c`. -/
theorem pagesNeeded_spec (c : Int) :
    (c ≤ 200 * (pagesNeeded c : Int)) ∧
    ∀ j : Nat, 1 ≤ j → j < pagesNeeded c → 200 * (j : Int) < c := by
  unfold pagesNeeded
  constructor
  · have := Int.ediv_add_emod (c + 199) 200
    omega
  · intro j h1 h2
    have := Int.ediv_add_emod (c + 199) 200
    omega

/-- On a response sequence whose page `p` reports page number `p` and a
fixed total `c`, with extractable session ids, the collector starting at
page `p ≤ pagesNeeded c` requests exactly the consecutive pages
`p, …, pagesNeeded c` and ends normally. -/
theorem getSessionIdsAux_consecutive (resp : Nat → Option PageDict) (c : Int)
    (data : Nat → List (Option String)) (l : Nat → List String)
    (hresp : ∀ p, 1 ≤ p → resp p = some ⟨some (data p), some (p : Int), some c⟩)
    (hex : ∀ p, 1 ≤ p → extractIds (data p) = some (l p)) :
    ∀ fuel p acc req, 1 ≤ p → p ≤ pagesNeeded c → pagesNeeded c + 1 - p ≤ fuel →
      ∃ ids, getSessionIdsAux resp fuel p acc req =
        (.ok ids, req ++ consecPages p (pagesNeeded c + 1 - p)) := by
  intro fuel
  induction fuel with
  | zero =>
    intro p acc req h1 h2 h3
    omega
  | succ n ih =>
    intro p acc req h1 h2 h3
    have hr := hresp p h1
    have he := hex p h1
    by_cases hstop : c ≤ 200 * (p : Int)
    · have hpK : p = pagesNeeded c := by
        rcases Nat.lt_or_ge p (pagesNeeded c) with hlt | hge
        · exact absurd ((pagesNeeded_spec c).2 p h1 hlt) (not_lt.mpr hstop)
        · omega
      have hone : pagesNeeded c + 1 - p = 1 := by omega
      refine ⟨(acc ++ (l p).dedup).dedup, ?_⟩
      rw [hone]
      simp [getSessionIdsAux, hr, he, PageDict.truthy, hstop, consecPages]
    · have hplt : p < pagesNeeded c := by
        rcases Nat.lt_or_ge p (pagesNeeded c) with hlt | hge
        · exact hlt
        · exact absurd (le_trans (pagesNeeded_spec c).1
            (by exact_mod_cast Nat.mul_le_mul_left 200 hge)) hstop
      obtain ⟨ids, hids⟩ := ih (p + 1) (acc ++ (l p).dedup) (req ++ [p])
        (by omega) (by omega) (by omega)
      refine ⟨ids, ?_⟩
      have hstep : getSessionIdsAux resp (n + 1) p acc req =
          getSessionIdsAux resp n (p + 1) (acc ++ (l p).dedup) (req ++ [p]) := by
        simp [getSessionIdsAux, hr, he, PageDict.truthy, hstop]
      rw [hstep, hids]
      have hcount : pagesNeeded c + 1 - p = (pagesNeeded c + 1 - (p + 1)) + 1 := by omega
      rw [hcount]
      simp [consecPages]

/-- Claim C2, amended: the collector requests consecutive pages starting at
page 1 with page size 200 and, after processing a page, stops exactly when
`200` times the *response's reported* page number reaches the reported
total `count`; with responses that report the requested page number and a
fixed `count = c`, it requests exactly pages `1, …, pagesNeeded c`, where
`pagesNeeded c` is the least `k ≥ 1` with `200 * k ≥ c` — for `c = 450`
that is three pages, because `400 < 450`. -/
theorem C2_claim (resp : Nat → Option PageDict) (c : Int)
    (data : Nat → List (Option String)) (l : Nat → List String)
    (hresp : ∀ p, 1 ≤ p → resp p = some ⟨some (data p), some (p : Int), some c⟩)
    (hex : ∀ p, 1 ≤ p → extractIds (data p) = some (l p)) :
    (∀ fuel, pagesNeeded c ≤ fuel →
      ∃ ids, _get_session_ids resp fuel = (.ok ids, consecPages 1 (pagesNeeded c))) ∧
    (c ≤ 200 * (pagesNeeded c : Int)) ∧
    (∀ j : Nat, 1 ≤ j → j < pagesNeeded c → 200 * (j : Int) < c) := by
  refine ⟨?_, (pagesNeeded_spec c).1, (pagesNeeded_spec c).2⟩
  intro fuel hf
  have h1 : 1 ≤ pagesNeeded c := le_max_left 1 _
  obtain ⟨ids, hids⟩ := getSessionIdsAux_consecutive resp c data l hresp hex fuel 1 [] []
    le_rfl h1 (by omega)
  refine ⟨ids, ?_⟩
  have : pagesNeeded c + 1 - 1 = pagesNeeded c := by omega
  rw [this] at hids
  simpa [_get_session_ids] using hids

/-- A normally terminated collector run returns a duplicate-free list whose
members are exactly the session identifiers occurring in the data of the
requested pages (beyond those already accumulated). -/
theorem getSessionIdsAux_ok_spec (resp : Nat → Option PageDict) :
    ∀ fuel page acc req ids reqOut,
      getSessionIdsAux resp fuel page acc req = (.ok ids, reqOut) →
      ∃ δ, reqOut = req ++ δ ∧ ids.Nodup ∧
        ∀ s, s ∈ ids ↔ s ∈ acc ∨ ∃ p ∈ δ, pageHas (resp p) s := by
  intro fuel
  induction fuel with
  | zero =>
    intro page acc req ids reqOut h
    simp [getSessionIdsAux] at h
  | succ n ih =>
    intro page acc req ids reqOut h
    cases hr : resp page with
    | none =>
      simp only [getSessionIdsAux, hr] at h
      obtain ⟨h1, h2⟩ := Prod.mk.injEq .. |>.mp h
      refine ⟨[page], h2.symm, ?_, ?_⟩
      · rw [← RunResult.ok.injEq .. |>.mp h1]
        exact acc.nodup_dedup
      · intro s
        rw [← RunResult.ok.injEq .. |>.mp h1]
        simp [List.mem_dedup, pageHas, hr]
    | some d =>
      cases htr : d.truthy with
      | false =>
        have hdata : d.data = none := by
          unfold PageDict.truthy at htr
          cases hd : d.data with
          | none => rfl
          | some r => rw [hd] at htr; simp at htr
        simp only [getSessionIdsAux, hr, htr] at h
        obtain ⟨h1, h2⟩ := Prod.mk.injEq .. |>.mp h
        refine ⟨[page], h2.symm, ?_, ?_⟩
        · rw [← RunResult.ok.injEq .. |>.mp h1]
          exact acc.nodup_dedup
        · intro s
          rw [← RunResult.ok.injEq .. |>.mp h1]
          simp [List.mem_dedup, pageHas, hr, hdata]
      | true =>
        cases hdata : d.data with
        | none => simp [getSessionIdsAux, hr, htr, hdata] at h
        | some recs =>
          cases hex : extractIds recs with
          | none => simp [getSessionIdsAux, hr, htr, hdata, hex] at h
          | some ids0 =>
            cases hp : d.page with
            | none => simp [getSessionIdsAux, hr, htr, hdata, hex, hp] at h
            | some pv =>
              cases hc : d.count with
              | none => simp [getSessionIdsAux, hr, htr, hdata, hex, hp, hc] at h
              | some cv =>
                by_cases hstop : cv ≤ 200 * pv
                · simp only [getSessionIdsAux, hr, htr, hdata, hex, hp, hc,
                    if_pos hstop] at h
                  obtain ⟨h1, h2⟩ := Prod.mk.injEq .. |>.mp h
                  refine ⟨[page], h2.symm, ?_, ?_⟩
                  · rw [← RunResult.ok.injEq .. |>.mp h1]
                    exact (acc ++ ids0.dedup).nodup_dedup
                  · intro s
                    rw [← RunResult.ok.injEq .. |>.mp h1]
                    simp [List.mem_dedup, List.mem_append, pageHas, hr, hdata,
                      extractIds_mem_iff hex s]
                · have hstep : getSessionIdsAux resp (n + 1) page acc req =
                      getSessionIdsAux resp n (page + 1) (acc ++ ids0.dedup)
                        (req ++ [page]) := by
                    simp [getSessionIdsAux, hr, htr, hdata, hex, hp, hc, hstop]
                  rw [hstep] at h
                  obtain ⟨δ, hδ, hnodup, hmem⟩ := ih (page + 1) _ _ _ _ h
                  refine ⟨page :: δ, by simp [hδ], hnodup, ?_⟩
                  intro s
                  rw [hmem s]
                  simp only [List.mem_append, List.mem_dedup, List.mem_cons,
                    extractIds_mem_iff hex s]
                  constructor
                  · rintro (⟨ha | hi⟩ | ⟨p, hpδ, hph⟩)
                    · exact Or.inl ha
                    · exact Or.inr ⟨page, Or.inl rfl, d, recs, hr, hdata, hi⟩
                    · exact Or.inr ⟨p, Or.inr hpδ, hph⟩
                  · rintro (ha | ⟨p, hpδ | hpδ, hph⟩)
                    · exact Or.inl (Or.inl ha)
                    · subst hpδ
                      obtain ⟨d', recs', hr', hdata', hmem'⟩ := hph
                      rw [hr] at hr'
                      cases hr'
                      rw [hdata] at hdata'
                      cases hdata'
                      exact Or.inl (Or.inr hmem')
                    · exact Or.inr ⟨p, hpδ, hph⟩

/-- Claim C3: a normally terminated collector run returns the de-duplicated
set of session identifiers extracted from the fetched pages' data lists —
each identifier occurs at most once, and an identifier is in the result
exactly when it occurs in the data of some requested page; no other page
contributes. -/
theorem C3_claim (resp : Nat → Option PageDict) (fuel : Nat)
    (ids : List String) (req : List Nat)
    (h : _get_session_ids resp fuel = (.ok ids, req)) :
    ids.Nodup ∧ ∀ s, s ∈ ids ↔ ∃ p ∈ req, pageHas (resp p) s := by
  obtain ⟨δ, hδ, hnodup, hmem⟩ := getSessionIdsAux_ok_spec resp fuel 1 [] [] ids req h
  refine ⟨hnodup, ?_⟩
  intro s
  rw [hmem s, hδ]
  simp

/-- If every page response is well-formed, reports the requested page
number, and reports a count above `200` times that page number, the
collector's loop never exits on its own: any amount of fuel is exhausted. -/
theorem getSessionIdsAux_no_stop (resp : Nat → Option PageDict)
    (h : ∀ p : Nat, 1 ≤ p → ∃ recs l c, resp p = some ⟨some recs, some (p : Int), some c⟩ ∧
      extractIds recs = some l ∧ 200 * (p : Int) < c) :
    ∀ fuel page acc req, 1 ≤ page →
      (getSessionIdsAux resp fuel page acc req).1 = .outOfFuel := by
  intro fuel
  induction fuel with
  | zero =>
    intro page acc req hp
    simp [getSessionIdsAux]
  | succ n ih =>
    intro page acc req hp
    obtain ⟨recs, l, c, hr, hex, hlt⟩ := h page hp
    have hstop : ¬ c ≤ 200 * (page : Int) := by omega
    have hstep : getSessionIdsAux resp (n + 1) page acc req =
        getSessionIdsAux resp n (page + 1) (acc ++ l.dedup) (req ++ [page]) := by
      simp [getSessionIdsAux, hr, hex, PageDict.truthy, hstop]
    rw [hstep]
    exact ih (page + 1) _ _ (by omega)

/-- A normally terminated collector run stopped because some requested
page's response was `None`, falsy, or reported a count of at most `200`
times its reported page number. -/
theorem getSessionIdsAux_ok_stop (resp : Nat → Option PageDict) :
    ∀ fuel page acc req ids reqOut,
      getSessionIdsAux resp fuel page acc req = (.ok ids, reqOut) →
      ∃ p ∈ reqOut, resp p = none ∨ ∃ d, resp p = some d ∧
        (d.truthy = false ∨
          ∃ pv cv, d.page = some pv ∧ d.count = some cv ∧ cv ≤ 200 * pv) := by
  intro fuel
  induction fuel with
  | zero =>
    intro page acc req ids reqOut h
    simp [getSessionIdsAux] at h
  | succ n ih =>
    intro page acc req ids reqOut h
    cases hr : resp page with
    | none =>
      simp only [getSessionIdsAux, hr] at h
      obtain ⟨h1, h2⟩ := Prod.mk.injEq .. |>.mp h
      exact ⟨page, by simp [← h2], Or.inl hr⟩
    | some d =>
      cases htr : d.truthy with
      | false =>
        simp only [getSessionIdsAux, hr, htr] at h
        obtain ⟨h1, h2⟩ := Prod.mk.injEq .. |>.mp h
        exact ⟨page, by simp [← h2], Or.inr ⟨d, hr, Or.inl htr⟩⟩
      | true =>
        cases hdata : d.data with
        | none => simp [getSessionIdsAux, hr, htr, hdata] at h
        | some recs =>
          cases hex : extractIds recs with
          | none => simp [getSessionIdsAux, hr, htr, hdata, hex] at h
          | some ids0 =>
            cases hp : d.page with
            | none => simp [getSessionIdsAux, hr, htr, hdata, hex, hp] at h
            | some pv =>
              cases hc : d.count with
              | none => simp [getSessionIdsAux, hr, htr, hdata, hex, hp, hc] at h
              | some cv =>
                by_cases hstop : cv ≤ 200 * pv
                · simp only [getSessionIdsAux, hr, htr, hdata, hex, hp, hc,
                    if_pos hstop] at h
                  obtain ⟨h1, h2⟩ := Prod.mk.injEq .. |>.mp h
                  exact ⟨page, by simp [← h2],
                    Or.inr ⟨d, hr, Or.inr ⟨pv, cv, hp, hc, hstop⟩⟩⟩
                · have hstep : getSessionIdsAux resp (n + 1) page acc req =
                      getSessionIdsAux resp n (page + 1) (acc ++ ids0.dedup)
                        (req ++ [page]) := by
                    simp [getSessionIdsAux, hr, htr, hdata, hex, hp, hc, hstop]
                  rw [hstep] at h
                  exact ih (page + 1) _ _ _ _ h

/-- Claim C9: the collector enforces no local bound on the number of pages —
on any response sequence whose every page is non-empty and reports a count
strictly above `200` times its page number, the loop exhausts any fuel
without terminating; and a normal termination happens exactly at a page
whose response is absent/falsy or whose reported count is at most `200`
times its reported page number. -/
theorem C9_claim (resp : Nat → Option PageDict) :
    ((∀ p : Nat, 1 ≤ p →
        ∃ recs l c, resp p = some ⟨some recs, some (p : Int), some c⟩ ∧
          extractIds recs = some l ∧ 200 * (p : Int) < c) →
      ∀ fuel, (_get_session_ids resp fuel).1 = .outOfFuel) ∧
    (∀ fuel ids req, _get_session_ids resp fuel = (.ok ids, req) →
      ∃ p ∈ req, resp p = none ∨ ∃ d, resp p = some d ∧
        (d.truthy = false ∨
          ∃ pv cv, d.page = some pv ∧ d.count = some cv ∧ cv ≤ 200 * pv)) := by
  constructor
  · intro h fuel
    exact getSessionIdsAux_no_stop resp h fuel 1 [] [] le_rfl
  · intro fuel ids req h
    exact getSessionIdsAux_ok_stop resp fuel 1 [] [] ids req h

/-- Claim C9, witness: on responses always reporting `count = 200 * page + 1`,
the collector is still running after 100 pages of fuel — no local page
bound exists. -/
theorem C9_witness :
    (_get_session_ids
      (fun p => some ⟨some [], some (p : Int), some (200 * (p : Int) + 1)⟩) 100).1 =
      .outOfFuel :=
  (C9_claim _).1
    (fun p _ => ⟨[], [], 200 * (p : Int) + 1, rfl, rfl, by omega⟩) 100

/-- Claim C3, witness: with page 1 containing session ids `[A, A, B]` and
`count = 5` (so `200 * 1 ≥ 5` stops after page 1, although page 2 holds
`[B, C]`), the result is exactly `[A, B]`, duplicate-free, and page 2 is
never requested. -/
theorem C3_witness :
    _get_session_ids (fun p => if p = 1
        then some ⟨some [some "A", some "A", some "B"], some 1, some 5⟩
        else some ⟨some [some "B", some "C"], some 2, some 5⟩) 5 =
      (.ok ["A", "B"], [1]) ∧
    (["A", "B"] : List String).Nodup ∧ 2 ∉ [1] := by
  have h : _get_session_ids (fun p => if p = 1
      then some ⟨some [some "A", some "A", some "B"], some 1, some 5⟩
      else some ⟨some [some "B", some "C"], some 2, some 5⟩) 5 =
      (.ok ["A", "B"], [1]) := by decide
  exact ⟨h, (C3_claim _ 5 ["A", "B"] [1] h).1, by decide⟩
theorem C2_witness :
    ∃ ids, _get_session_ids (fun p => some ⟨some [], some (p : Int), some 450⟩) 3 =
      (.ok ids, consecPages 1 (pagesNeeded 450)) ∧
      consecPages 1 (pagesNeeded 450) = [1, 2, 3] := by
  obtain ⟨ids, hids⟩ := (C2_claim (fun p => some ⟨some [], some (p : Int), some 450⟩)
    450 (fun _ => []) (fun _ => []) (fun p hp => rfl) (fun p hp => rfl)).1 3 (by decide)
  exact ⟨ids, hids, by decide⟩

/-- Claim C1, counterexample: a page response that lacks the `data` key but
is not an empty dict (here it still has `page` and `count`) makes the
collector raise `KeyError`, which is a failure, not the normal termination
the claim asserts; in particular the result is not `ok` of any set. -/
theorem C1_counterexample :
    _get_session_ids (fun _ => some ⟨none, some 1, some 5⟩) 5 =
      (.err "KeyError: data", [1]) ∧
    ∀ ids, (_get_session_ids (fun _ => some ⟨none, some 1, some 5⟩) 5).1 ≠ .ok ids := by
  have h1 : _get_session_ids (fun _ => some ⟨none, some 1, some 5⟩) 5 =
      (.err "KeyError: data", [1]) := by decide
  refine ⟨h1, ?_⟩
  intro ids h
  rw [h1] at h
  exact RunResult.noConfusion h

/-- Claim C1, amended: if a page response is `None` or an empty (falsy)
dict, the collector stops as a normal termination, returning the set
accumulated so far; in particular, when this occurs on the very first page,
`_get_session_ids` returns the empty set and no error is signalled. -/
theorem C1_claim (resp : Nat → Option PageDict) (fuel : Nat) :
    (∀ page acc req,
      (resp page = none ∨ ∃ d, resp page = some d ∧ d.truthy = false) →
      getSessionIdsAux resp (fuel + 1) page acc req = (.ok acc.dedup, req ++ [page])) ∧
    ((resp 1 = none ∨ ∃ d, resp 1 = some d ∧ d.truthy = false) →
      _get_session_ids resp (fuel + 1) = (.ok [], [1])) := by
  have main : ∀ page acc req,
      (resp page = none ∨ ∃ d, resp page = some d ∧ d.truthy = false) →
      getSessionIdsAux resp (fuel + 1) page acc req = (.ok acc.dedup, req ++ [page]) := by
    intro page acc req h
    rcases h with h | ⟨d, hd, ht⟩
    · simp [getSessionIdsAux, h]
    · simp [getSessionIdsAux, hd, ht]
  exact ⟨main, fun h => by simpa [_get_session_ids] using main 1 [] [] h⟩

/-- Claim C1, witness: a `None` response on the first page yields the empty
set as a normal termination. -/
theorem C1_witness : _get_session_ids (fun _ => none) 1 = (.ok [], [1]) :=
  (C1_claim (fun _ => none) 0).2 (Or.inl rfl)

/-- Claim C2, counterexample: the stop condition uses the response's
*reported* page number (`events_where["page"]`), not the loop counter.  A
first-page response reporting `page = 3` with `count = 450` stops the
collector after one request (`200 * 3 ≥ 450`), although the claim — using
the current page number `1`, with `200 * 1 < 450` — requires page 2 to be
requested next. -/
theorem C2_counterexample :
    _get_session_ids (fun _ => some ⟨some [], some 3, some 450⟩) 5 = (.ok [], [1]) ∧
    2 ∉ (_get_session_ids (fun _ => some ⟨some [], some 3, some 450⟩) 5).2 := by decide

/-- Claim C4: evaluation at the failing input.  For `"1987-03-01"` with
`end_of_day = true` in a UTC local timezone (epoch second of
1987-03-01 23:59:59 is 541641599), the intended value — the millisecond
timestamp of 23:59:59.999 — is 541641599999, but the source's
`int(dt.timestamp() * 1000)`, computed in IEEE double arithmetic, truncates
to 541641599998: the claim is the documented intent and the code loses a
millisecond. -/
theorem C4_claim :
    convert_date_to_unix 0 "1987-03-01" true = .ok 541641599999 ∧
    tsMsFloatEod 541641599 = 541641599998 ∧
    (541641599998 : Int) ≠ 541641599999 := by decide

/-- Claim C5: for every date string parsing under the explicit-time format
`YYYY-MM-DD HH:MM:SS`, the conversion returns the millisecond timestamp of
exactly that local date-time, irrespective of the `end_of_day` flag. -/
theorem C5_claim (tz : Int) (str : String) (y m d h mi sec : Nat)
    (hp : parseDateTimeE str.data = .ok ((y, m, d), (h, mi, sec))) (b : Bool) :
    convert_date_to_unix tz str b =
      .ok (wallMs (y : Int) (m : Int) (d : Int) (h : Int) (mi : Int) (sec : Int) 0 - tz) := by
  unfold convert_date_to_unix
  rw [hp]

/-- Claim C5, witness: `"2024-03-01 08:30:00"` converts to the timestamp of
08:30:00, not end-of-day, under both flag values. -/
theorem C5_witness :
    convert_date_to_unix 0 "2024-03-01 08:30:00" true = .ok 1709281800000 ∧
    convert_date_to_unix 0 "2024-03-01 08:30:00" false = .ok 1709281800000 := by
  constructor
  · exact (C5_claim 0 "2024-03-01 08:30:00" 2024 3 1 8 30 0 (by decide) true).trans
      (by decide)
  · exact (C5_claim 0 "2024-03-01 08:30:00" 2024 3 1 8 30 0 (by decide) false).trans
      (by decide)

/-- Claim C6: for every input string matching neither accepted format, the
conversion fails with the invalid-date-format error carrying the underlying
parse failure detail, and never returns a timestamp. -/
theorem C6_claim (tz : Int) (str : String) (b : Bool) (e1 e2 : String)
    (h1 : parseDateTimeE str.data = .error e1)
    (h2 : parseDateOnlyE str.data = .error e2) :
    convert_date_to_unix tz str b =
      .error ("Invalid date format. Please use YYYY-MM-DD or YYYY-MM-DD HH:MM:SS. Error: "
        ++ e2) ∧
    ∀ t : Int, convert_date_to_unix tz str b ≠ .ok t := by
  have hmain : convert_date_to_unix tz str b =
      .error ("Invalid date format. Please use YYYY-MM-DD or YYYY-MM-DD HH:MM:SS. Error: "
        ++ e2) := by
    unfold convert_date_to_unix
    rw [h1, h2]
  refine ⟨hmain, ?_⟩
  intro t ht
  rw [hmain] at ht
  exact Except.noConfusion ht

/-- Claim C6, witness: `"not-a-date"` fails with the invalid-date-format
error and is never defaulted to a timestamp. -/
theorem C6_witness :
    convert_date_to_unix 0 "not-a-date" true =
      .error ("Invalid date format. Please use YYYY-MM-DD or YYYY-MM-DD HH:MM:SS. Error: "
        ++ "time data does not match format %Y-%m-%d") ∧
    ∀ t : Int, convert_date_to_unix 0 "not-a-date" true ≠ .ok t :=
  C6_claim 0 "not-a-date" true "time data does not match format %Y-%m-%d %H:%M:%S"
    "time data does not match format %Y-%m-%d" (by decide) (by decide)

/-- Claim C7: every handler converts an error raised during its execution —
a date-format error or a failing remote call (for the session tool, a
failure inside the collector) — into its fixed error label followed by the
failure detail, and returns a textual value in the success case as well
(the handlers are total functions into `String`, so no error escapes). -/
theorem C7_claim (e : String) (tz : Int) :
    (∀ (α : Type) (dumps : α → String),
      get_websites (.error e) dumps = "Error fetching websites: " ++ e) ∧
    (∀ (α : Type) (remote : Except String α) (dumps : α → String),
      (∃ v, remote = .ok v ∧ get_websites remote dumps = dumps v) ∨
      (∃ msg, remote = .error msg ∧
        get_websites remote dumps = "Error fetching websites: " ++ msg)) ∧
    (∀ (α : Type) (wid : String) (remote : String → Except String α) (dumps : α → String),
      remote wid = .error e →
      get_active_visitors wid remote dumps = "Error fetching active visitors: " ++ e) ∧
    (∀ (α : Type) (start_at end_at wid sid : String) (s en : Int)
        (remote : String → String → Int → Int → Except String α) (dumps : α → String),
      convert_date_to_unix tz start_at false = .ok s →
      convert_date_to_unix tz end_at true = .ok en →
      remote wid sid s en = .error e →
      get_tracking_data tz wid sid start_at end_at remote dumps =
        "Error fetching tracking data: " ++ e) ∧
    (∀ (α : Type) (start_at end_at wid sid m : String)
        (remote : String → String → Int → Int → Except String α) (dumps : α → String),
      convert_date_to_unix tz start_at false = .error m →
      get_tracking_data tz wid sid start_at end_at remote dumps =
        "Error fetching tracking data: " ++ m) ∧
    (∀ (α : Type) (start_at end_at wid : String) (s en : Int)
        (remote : String → Int → Int → Except String α) (dumps : α → String),
      convert_date_to_unix tz start_at false = .ok s →
      convert_date_to_unix tz end_at true = .ok en →
      remote wid s en = .error e →
      get_website_stats tz wid start_at end_at remote dumps =
        "Error fetching website stats: " ++ e) ∧
    (∀ (α : Type) (start_at end_at wid ty : String) (s en : Int)
        (remote : String → Int → Int → String → Except String α) (dumps : α → String),
      convert_date_to_unix tz start_at false = .ok s →
      convert_date_to_unix tz end_at true = .ok en →
      remote wid s en ty = .error e →
      get_website_metrics tz wid start_at end_at ty remote dumps =
        "Error fetching website metrics: " ++ e) ∧
    (∀ (α : Type) (start_at end_at wid unit tzn : String) (s en : Int)
        (remote : String → Int → Int → String → String → Except String α)
        (dumps : α → String),
      convert_date_to_unix tz start_at false = .ok s →
      convert_date_to_unix tz end_at true = .ok en →
      remote wid s en unit tzn = .error e →
      get_pageview_series tz wid start_at end_at unit tzn remote dumps =
        "Error fetching pageview series: " ++ e) ∧
    (∀ (start_at end_at wid : String) (ev : Option String) (s en : Int)
        (resp : String → Option String → Int → Int → Nat → Option PageDict)
        (fuel : Nat) (dumps : List String → String) (req : List Nat),
      convert_date_to_unix tz start_at false = .ok s →
      convert_date_to_unix tz end_at true = .ok en →
      _get_session_ids (resp wid ev s en) fuel = (.err e, req) →
      get_session_ids tz wid start_at end_at ev resp fuel dumps =
        some ("Error fetching session IDs: " ++ e)) := by
  refine ⟨?_, ?_, ?_, ?_, ?_, ?_, ?_, ?_, ?_⟩
  · intro α dumps
    rfl
  · intro α remote dumps
    cases remote with
    | ok v => exact Or.inl ⟨v, rfl, rfl⟩
    | error msg => exact Or.inr ⟨msg, rfl, rfl⟩
  · intro α wid remote dumps hrem
    unfold get_active_visitors
    simp only [hrem]
  · intro α start_at end_at wid sid s en remote dumps hs he hrem
    unfold get_tracking_data
    simp only [hs, he, hrem]
  · intro α start_at end_at wid sid m remote dumps hm
    unfold get_tracking_data
    simp only [hm]
  · intro α start_at end_at wid s en remote dumps hs he hrem
    unfold get_website_stats
    simp only [hs, he, hrem]
  · intro α start_at end_at wid ty s en remote dumps hs he hrem
    unfold get_website_metrics
    simp only [hs, he, hrem]
  · intro α start_at end_at wid unit tzn s en remote dumps hs he hrem
    unfold get_pageview_series
    simp only [hs, he, hrem]
  · intro start_at end_at wid ev s en resp fuel dumps req hs he hrun
    unfold get_session_ids
    simp only [hs, he, hrun]

/-- Claim C7, witness: each handler, on a raising remote call (or a
collector `KeyError`, or an invalid date), returns its labelled error text;
`get_websites` returns the serialized payload on success. -/
theorem C7_witness :
    get_websites (α := String) (.error "boom") id = "Error fetching websites: boom" ∧
    ((∃ v, (.ok "J" : Except String String) = .ok v ∧
        get_websites (.ok "J") id = id v) ∨
      (∃ msg, (.ok "J" : Except String String) = .error msg ∧
        get_websites (.ok "J") id = "Error fetching websites: " ++ msg)) ∧
    get_active_visitors "w" (fun _ => (.error "boom" : Except String String)) id =
      "Error fetching active visitors: boom" ∧
    get_tracking_data 0 "w" "sid" "2024-03-01" "2024-03-02"
      (fun _ _ _ _ => (.error "boom" : Except String String)) id =
      "Error fetching tracking data: boom" ∧
    get_tracking_data 0 "w" "sid" "not-a-date" "2024-03-02"
      (fun _ _ _ _ => (.ok "J" : Except String String)) id =
      "Error fetching tracking data: " ++
        ("Invalid date format. Please use YYYY-MM-DD or YYYY-MM-DD HH:MM:SS. Error: "
          ++ "time data does not match format %Y-%m-%d") ∧
    get_website_stats 0 "w" "2024-03-01" "2024-03-02"
      (fun _ _ _ => (.error "boom" : Except String String)) id =
      "Error fetching website stats: boom" ∧
    get_website_metrics 0 "w" "2024-03-01" "2024-03-02" "url"
      (fun _ _ _ _ => (.error "boom" : Except String String)) id =
      "Error fetching website metrics: boom" ∧
    get_pageview_series 0 "w" "2024-03-01" "2024-03-02" "day" "UTC"
      (fun _ _ _ _ _ => (.error "boom" : Except String String)) id =
      "Error fetching pageview series: boom" ∧
    get_session_ids 0 "w" "2024-03-01" "2024-03-02" none
      (fun _ _ _ _ => fun _ => some ⟨none, some 1, some 5⟩) 5 (fun _ => "") =
      some "Error fetching session IDs: KeyError: data" := by
  refine ⟨(C7_claim "boom" 0).1 String id,
    (C7_claim "boom" 0).2.1 String (.ok "J") id,
    (C7_claim "boom" 0).2.2.1 String "w" _ id rfl,
    (C7_claim "boom" 0).2.2.2.1 String "2024-03-01" "2024-03-02" "w" "sid"
      1709251200000 1709423999999 _ id (by decide) (by decide) rfl,
    (C7_claim "boom" 0).2.2.2.2.1 String "not-a-date" "2024-03-02" "w" "sid"
      ("Invalid date format. Please use YYYY-MM-DD or YYYY-MM-DD HH:MM:SS. Error: "
        ++ "time data does not match format %Y-%m-%d") _ id (by decide),
    (C7_claim "boom" 0).2.2.2.2.2.1 String "2024-03-01" "2024-03-02" "w"
      1709251200000 1709423999999 _ id (by decide) (by decide) rfl,
    (C7_claim "boom" 0).2.2.2.2.2.2.1 String "2024-03-01" "2024-03-02" "w" "url"
      1709251200000 1709423999999 _ id (by decide) (by decide) rfl,
    (C7_claim "boom" 0).2.2.2.2.2.2.2.1 String "2024-03-01" "2024-03-02" "w" "day"
      "UTC" 1709251200000 1709423999999 _ id (by decide) (by decide) rfl,
    (C7_claim "KeyError: data" 0).2.2.2.2.2.2.2.2 "2024-03-01" "2024-03-02" "w" none
      1709251200000 1709423999999 _ 5 (fun _ => "") [1] (by decide) (by decide)
      (by decide)⟩

/-- Claim C8: whenever both date conversions succeed, each date-taking
handler invokes its remote call (or the session collector) at exactly the
normalized pair — the start boundary converted with `end_of_day = false`
and the end boundary with `end_of_day = true`. -/
theorem C8_claim (tz : Int) (start_at end_at : String) (s en : Int)
    (hs : convert_date_to_unix tz start_at false = .ok s)
    (he : convert_date_to_unix tz end_at true = .ok en) :
    (∀ (wid : String) (ev : Option String)
        (resp : String → Option String → Int → Int → Nat → Option PageDict)
        (fuel : Nat) (dumps : List String → String),
      get_session_ids tz wid start_at end_at ev resp fuel dumps =
        match _get_session_ids (resp wid ev s en) fuel with
        | (.ok ids, _) => some (dumps ids)
        | (.err m, _) => some ("Error fetching session IDs: " ++ m)
        | (.outOfFuel, _) => none) ∧
    (∀ (α : Type) (wid sid : String)
        (remote : String → String → Int → Int → Except String α) (dumps : α → String),
      get_tracking_data tz wid sid start_at end_at remote dumps =
        match remote wid sid s en with
        | .ok v => dumps v
        | .error m => "Error fetching tracking data: " ++ m) ∧
    (∀ (α : Type) (wid : String) (remote : String → Int → Int → Except String α)
        (dumps : α → String),
      get_website_stats tz wid start_at end_at remote dumps =
        match remote wid s en with
        | .ok v => dumps v
        | .error m => "Error fetching website stats: " ++ m) ∧
    (∀ (α : Type) (wid ty : String)
        (remote : String → Int → Int → String → Except String α) (dumps : α → String),
      get_website_metrics tz wid start_at end_at ty remote dumps =
        match remote wid s en ty with
        | .ok v => dumps v
        | .error m => "Error fetching website metrics: " ++ m) ∧
    (∀ (α : Type) (wid unit tzn : String)
        (remote : String → Int → Int → String → String → Except String α)
        (dumps : α → String),
      get_pageview_series tz wid start_at end_at unit tzn remote dumps =
        match remote wid s en unit tzn with
        | .ok v => dumps v
        | .error m => "Error fetching pageview series: " ++ m) := by
  refine ⟨?_, ?_, ?_, ?_, ?_⟩
  · intro wid ev resp fuel dumps
    unfold get_session_ids
    simp only [hs, he]
  · intro α wid sid remote dumps
    unfold get_tracking_data
    simp only [hs, he]
  · intro α wid remote dumps
    unfold get_website_stats
    simp only [hs, he]
  · intro α wid ty remote dumps
    unfold get_website_metrics
    simp only [hs, he]
  · intro α wid unit tzn remote dumps
    unfold get_pageview_series
    simp only [hs, he]

/-- Claim C8, witness: with start `"2024-03-01"` and end `"2024-03-02"` in a
UTC local timezone, the remote call of `get_website_stats` receives exactly
`(1709251200000, 1709423999999)` — midnight of the start date and
23:59:59.999 of the end date — and the session collector of
`get_session_ids` runs on the responses for exactly that pair. -/
theorem C8_witness :
    get_website_stats 0 "w" "2024-03-01" "2024-03-02"
      (fun _ s en => (.ok (toString s ++ ":" ++ toString en) : Except String String)) id =
      "1709251200000:1709423999999" ∧
    get_session_ids 0 "w" "2024-03-01" "2024-03-02" none
      (fun _ _ s en => if s = 1709251200000 ∧ en = 1709423999999 then fun _ => none
        else fun _ => some ⟨none, none, none⟩) 1 (fun _ => "ids") =
      some "ids" := by
  constructor
  · exact ((C8_claim 0 "2024-03-01" "2024-03-02" 1709251200000 1709423999999
      (by decide) (by decide)).2.2.1 String "w" _ id).trans (by decide)
  · exact ((C8_claim 0 "2024-03-01" "2024-03-02" 1709251200000 1709423999999
      (by decide) (by decide)).1 "w" none _ 1 (fun _ => "ids")).trans (by decide)

/-- Claim C10: if converting either date boundary fails, the handler
returns the labelled error text at once — the result is a constant in the
remote call (and, for the session tool, in the response sequence and fuel),
so no remote request is issued. -/
theorem C10_claim (tz : Int) (start_at end_at : String) (m : String) :
    (convert_date_to_unix tz start_at false = .error m →
      (∀ (wid : String) (ev : Option String)
          (resp : String → Option String → Int → Int → Nat → Option PageDict)
          (fuel : Nat) (dumps : List String → String),
        get_session_ids tz wid start_at end_at ev resp fuel dumps =
          some ("Error fetching session IDs: " ++ m)) ∧
      (∀ (α : Type) (wid sid : String)
          (remote : String → String → Int → Int → Except String α) (dumps : α → String),
        get_tracking_data tz wid sid start_at end_at remote dumps =
          "Error fetching tracking data: " ++ m) ∧
      (∀ (α : Type) (wid : String) (remote : String → Int → Int → Except String α)
          (dumps : α → String),
        get_website_stats tz wid start_at end_at remote dumps =
          "Error fetching website stats: " ++ m) ∧
      (∀ (α : Type) (wid ty : String)
          (remote : String → Int → Int → String → Except String α) (dumps : α → String),
        get_website_metrics tz wid start_at end_at ty remote dumps =
          "Error fetching website metrics: " ++ m) ∧
      (∀ (α : Type) (wid unit tzn : String)
          (remote : String → Int → Int → String → String → Except String α)
          (dumps : α → String),
        get_pageview_series tz wid start_at end_at unit tzn remote dumps =
          "Error fetching pageview series: " ++ m)) ∧
    (∀ s : Int, convert_date_to_unix tz start_at false = .ok s →
      convert_date_to_unix tz end_at true = .error m →
      (∀ (wid : String) (ev : Option String)
          (resp : String → Option String → Int → Int → Nat → Option PageDict)
          (fuel : Nat) (dumps : List String → String),
        get_session_ids tz wid start_at end_at ev resp fuel dumps =
          some ("Error fetching session IDs: " ++ m)) ∧
      (∀ (α : Type) (wid sid : String)
          (remote : String → String → Int → Int → Except String α) (dumps : α → String),
        get_tracking_data tz wid sid start_at end_at remote dumps =
          "Error fetching tracking data: " ++ m) ∧
      (∀ (α : Type) (wid : String) (remote : String → Int → Int → Except String α)
          (dumps : α → String),
        get_website_stats tz wid start_at end_at remote dumps =
          "Error fetching website stats: " ++ m) ∧
      (∀ (α : Type) (wid ty : String)
          (remote : String → Int → Int → String → Except String α) (dumps : α → String),
        get_website_metrics tz wid start_at end_at ty remote dumps =
          "Error fetching website metrics: " ++ m) ∧
      (∀ (α : Type) (wid unit tzn : String)
          (remote : String → Int → Int → String → String → Except String α)
          (dumps : α → String),
        get_pageview_series tz wid start_at end_at unit tzn remote dumps =
          "Error fetching pageview series: " ++ m)) := by
  constructor
  · intro hm
    refine ⟨?_, ?_, ?_, ?_, ?_⟩
    · intro wid ev resp fuel dumps
      unfold get_session_ids
      simp only [hm]
    · intro α wid sid remote dumps
      unfold get_tracking_data
      simp only [hm]
    · intro α wid remote dumps
      unfold get_website_stats
      simp only [hm]
    · intro α wid ty remote dumps
      unfold get_website_metrics
      simp only [hm]
    · intro α wid unit tzn remote dumps
      unfold get_pageview_series
      simp only [hm]
  · intro s hs hm
    refine ⟨?_, ?_, ?_, ?_, ?_⟩
    · intro wid ev resp fuel dumps
      unfold get_session_ids
      simp only [hs, hm]
    · intro α wid sid remote dumps
      unfold get_tracking_data
      simp only [hs, hm]
    · intro α wid remote dumps
      unfold get_website_stats
      simp only [hs, hm]
    · intro α wid ty remote dumps
      unfold get_website_metrics
      simp only [hs, hm]
    · intro α wid unit tzn remote dumps
      unfold get_pageview_series
      simp only [hs, hm]

/-- Claim C10, witness: with an invalid start date (or an invalid end
date), `get_session_ids` and `get_tracking_data` return the date error
immediately, for an arbitrary response function — no page is requested. -/
theorem C10_witness :
    get_session_ids 0 "w" "not-a-date" "2024-03-01" none
      (fun _ _ _ _ _ => some ⟨some [some "A"], some 1, some 1⟩) 5 (fun _ => "") =
      some ("Error fetching session IDs: " ++
        ("Invalid date format. Please use YYYY-MM-DD or YYYY-MM-DD HH:MM:SS. Error: "
          ++ "time data does not match format %Y-%m-%d")) ∧
    get_tracking_data 0 "w" "sid" "2024-03-01" "2024-13-01"
      (fun _ _ _ _ => (.ok "J" : Except String String)) id =
      "Error fetching tracking data: " ++
        ("Invalid date format. Please use YYYY-MM-DD or YYYY-MM-DD HH:MM:SS. Error: "
          ++ "time data does not match format %Y-%m-%d") := by
  constructor
  · exact ((C10_claim 0 "not-a-date" "2024-03-01"
      ("Invalid date format. Please use YYYY-MM-DD or YYYY-MM-DD HH:MM:SS. Error: "
        ++ "time data does not match format %Y-%m-%d")).1 (by decide)).1
      "w" none _ 5 (fun _ => "")
  · exact (((C10_claim 0 "2024-03-01" "2024-13-01"
      ("Invalid date format. Please use YYYY-MM-DD or YYYY-MM-DD HH:MM:SS. Error: "
        ++ "time data does not match format %Y-%m-%d")).2 1709251200000 (by decide)
      (by decide)).2.1 String "w" "sid" _ id)
